import Mathlib

/-!
Shallow embedding of the jobzee multi-agent matching system:
the scoring engine and matching pipeline of
`jobzee-agents/job_finder_agent/workflows/match_jobs.py`,
the candidate analyzer of
`multi-agent-agents/candidate_finder_agent/workflows/analyze_candidates.py`,
and the agent-to-agent message protocol of
`multi-agent-agents/common/a2a_protocol.py`.
Python floats are modelled as rationals, Python dict profiles as structures
whose field defaults mirror the dict.get defaults used by the code.
-/

/-! Concrete profiles for the spec's Scenario A. -/

namespace Jobzee

/-- Python substring containment (the `in` operator on strings), on char
lists: true iff the needle occurs contiguously in the haystack.  An empty
needle is contained in everything, as in Python. -/
def containsSub : List Char → List Char → Bool
  | n, [] => n.isEmpty
  | n, c :: t => n.isPrefixOf (c :: t) || containsSub n t

/-- Python str.lower, as a map over the character list. -/
def pyLower (s : String) : String := ⟨s.data.map Char.toLower⟩

/-- Candidate profile fields read by the scoring code; defaults are the
dict.get defaults in the source. -/
structure CandidateProfile where
  skills : List String := []
  experience_years : Int := 0
  location : String := ""
  remote_preference : Bool := false
  salary_expectation : String := ""

/-- Job posting fields read by the scoring code; defaults are the
dict.get defaults in the source. -/
structure JobData where
  skills : List String := []
  experience_level : String := ""
  location : String := ""
  remote_friendly : Bool := false
  salary_range : String := ""

/-- Candidate skill set (Python builds set(...) from the list). -/
def candidateSkills (cp : CandidateProfile) : Finset String := cp.skills.toFinset

/-- Job skill set (Python builds set(...) from the list). -/
def jobSkills (job : JobData) : Finset String := job.skills.toFinset

/-- Skills component of the match score: intersection size over job skill
set size, 0.0 when the job skill set is empty (`if not job_skills`). -/
def skills_score (cp : CandidateProfile) (job : JobData) : ℚ :=
  if jobSkills job = ∅ then 0
  else ((candidateSkills cp ∩ jobSkills job).card : ℚ) / ((jobSkills job).card : ℚ)

/-- Missing skills computed in analyze_job_match: job skills minus
candidate skills. -/
def missing_skills (cp : CandidateProfile) (job : JobData) : Finset String :=
  jobSkills job \ candidateSkills cp

/-- Mapping from experience level band to minimum years
(JobMatcher._extract_min_experience; dict.get default 0). -/
def extract_min_experience (experience_level : String) : Nat :=
  let l := pyLower experience_level
  if l = "entry" then 0
  else if l = "junior" then 0
  else if l = "mid" then 3
  else if l = "senior" then 5
  else if l = "lead" then 8
  else if l = "principal" then 12
  else 0

/-- Mapping from experience level band to maximum years
(JobMatcher._extract_max_experience; dict.get default 5). -/
def extract_max_experience (experience_level : String) : Nat :=
  let l := pyLower experience_level
  if l = "entry" then 2
  else if l = "junior" then 2
  else if l = "mid" then 5
  else if l = "senior" then 8
  else if l = "lead" then 12
  else if l = "principal" then 20
  else 5

/-- Experience component of the match score: 1.0 inside the band range,
linear decay over a 5 year gap below the minimum or above the maximum. -/
def exp_score (experience_level : String) (candidate_exp : Int) : ℚ :=
  let job_exp_min : Int := extract_min_experience experience_level
  let job_exp_max : Int := extract_max_experience experience_level
  if job_exp_min ≤ candidate_exp ∧ candidate_exp ≤ job_exp_max then 1
  else if candidate_exp < job_exp_min then
    max 0 (1 - ((job_exp_min - candidate_exp : Int) : ℚ) / 5)
  else
    max 0 (1 - ((candidate_exp - job_exp_max : Int) : ℚ) / 5)

/-- Case-insensitive mutual substring test on the two location strings,
as in both _calculate_match_score and assess_cultural_fit. -/
def location_compatible (cp : CandidateProfile) (job : JobData) : Bool :=
  let cl := (pyLower cp.location).data
  let jl := (pyLower job.location).data
  containsSub cl jl || containsSub jl cl

/-- Location component of the match score: 1.0 on substring containment,
0.8 when both sides accept remote work, else 0.0. -/
def location_score (cp : CandidateProfile) (job : JobData) : ℚ :=
  if location_compatible cp job then 1
  else if cp.remote_preference && job.remote_friendly then 4/5
  else 0

/-- Numeric value of a decimal digit character. -/
def digitToNat (c : Char) : Nat := c.toNat - 48

/-- Maximal runs of digits in a char list, as numbers, mirroring
re.findall of one-or-more digits followed by int(...); the accumulator
holds the run currently being read. -/
def extractNums : List Char → Option Nat → List Nat
  | [], none => []
  | [], some n => [n]
  | c :: rest, cur =>
    if c.isDigit then extractNums rest (some (10 * cur.getD 0 + digitToNat c))
    else
      match cur with
      | none => extractNums rest none
      | some n => n :: extractNums rest none

/-- All numbers appearing in a salary string. -/
def findall_digits (s : String) : List Nat := extractNums s.data none

/-- Salary component of the match score
(JobMatcher._calculate_salary_match): neutral 0.5 when either side has
no text or no parseable numbers, else a bucketed ratio of averages. -/
def calculate_salary_match (candidate_salary job_salary : String) : ℚ :=
  if candidate_salary = "" ∨ job_salary = "" then 1/2
  else
    let candidate_numbers := findall_digits candidate_salary
    let job_numbers := findall_digits job_salary
    if candidate_numbers = [] ∨ job_numbers = [] then 1/2
    else
      let candidate_avg : ℚ :=
        ((candidate_numbers.map (fun n => (n : ℚ))).sum) / (candidate_numbers.length : ℚ)
      let job_avg : ℚ :=
        ((job_numbers.map (fun n => (n : ℚ))).sum) / (job_numbers.length : ℚ)
      if 0 < job_avg then
        let ratio := candidate_avg / job_avg
        if 4/5 ≤ ratio ∧ ratio ≤ 6/5 then 1
        else if 3/5 ≤ ratio ∧ ratio ≤ 7/5 then 7/10
        else 3/10
      else 1/2

/-- Aggregate match score (JobMatcher._calculate_match_score): fixed
weighted sum of the four factors, clamped to the unit interval.  The
weights 0.4, 0.3, 0.2, 0.1 are written in the source body. -/
def calculate_match_score (cp : CandidateProfile) (job : JobData) : ℚ :=
  let total_score :=
    skills_score cp job * (2/5) +
    exp_score job.experience_level cp.experience_years * (3/10) +
    location_score cp job * (1/5) +
    calculate_salary_match cp.salary_expectation job.salary_range * (1/10)
  min 1 (max 0 total_score)

/-- Final weighted aggregate of the candidate analyzer
(CandidateAnalyzer.generate_final_assessment); the source applies no
clamp here. -/
def overall_score (skill_score experience_score portfolio_score cultural_score : ℚ) : ℚ :=
  skill_score * (7/20) +
  experience_score * (1/4) +
  portfolio_score * (1/4) +
  cultural_score * (3/20)

/-- Cultural fit heuristic (CandidateAnalyzer.assess_cultural_fit):
base 0.7, plus 0.1 for each of experience alignment, remote preference
match and location compatibility, capped at 1.0. -/
def cultural_fit_score (cp : CandidateProfile) (job : JobData) : ℚ :=
  let s0 : ℚ := 7/10
  let s1 := if (extract_min_experience job.experience_level : Int) ≤ cp.experience_years
            then s0 + 1/10 else s0
  let s2 := if cp.remote_preference = job.remote_friendly then s1 + 1/10 else s1
  let s3 := if location_compatible cp job then s2 + 1/10 else s2
  min 1 s3

/-- Scenario A candidate: skills python and django, 4 years, city string
equal to the job's, no salary data. -/
def cpA : CandidateProfile :=
  { skills := ["python", "django"], experience_years := 4, location := "berlin",
    remote_preference := false, salary_expectation := "" }

/-- Scenario A job: skills python, django, aws; band mid; same city
string; no salary data. -/
def jobA : JobData :=
  { skills := ["python", "django", "aws"], experience_level := "mid",
    location := "berlin", remote_friendly := false, salary_range := "" }

/-- One result of the upstream vector search: document id, its metadata
and the similarity score. -/
structure ScoredJob where
  id : String
  metadata : JobData
  score : ℚ

/-- One produced job match (the JobMatch dataclass); only the fields the
ranking logic reads are scalar, AI reasoning text is kept as a string. -/
structure JobMatch where
  job_id : String
  job_title : String := ""
  company : String := ""
  location : String := ""
  match_score : ℚ
  reasoning : String := ""
  skills_match : List String := []
  missing : List String := []
  salary_range : Option String := none
  job_type : String := "full-time"
  remote_friendly : Bool := false

/-- State of the job matching workflow (the MatchingState model), with
the source's field defaults.  The candidate profile is an optional
record standing for the possibly empty Python dict. -/
structure MatchingState where
  candidate_id : String
  candidate_profile : Option CandidateProfile := none
  available_jobs : List ScoredJob := []
  «matches» : List JobMatch := []
  current_job_index : Nat := 0
  is_complete : Bool := false
  error_message : String := ""
  min_match_score : ℚ := 7/10
  max_matches : Nat := 10
  required_skills_weight : ℚ := 2/5
  experience_weight : ℚ := 3/10
  location_weight : ℚ := 1/5
  salary_weight : ℚ := 1/10

/-- Initial state of a run for one candidate. -/
def MatchingState.init (cid : String) : MatchingState := { candidate_id := cid }

/-- Stage load_candidate_profile: the db result is passed in explicitly;
a raised exception is the error case of the Except.  On lookup failure
or exception the stage assigns the state's single error_message field. -/
def load_candidate_profile (s : MatchingState)
    (dbResult : Except String (Option CandidateProfile)) : MatchingState :=
  match dbResult with
  | .ok (some p) => { s with candidate_profile := some p }
  | .ok none => { s with error_message := "Candidate profile not found" }
  | .error e => { s with error_message := e }

/-- Stage search_available_jobs: returns the state unchanged when no
profile is loaded, stores the search results on success, assigns the
error_message field on exception. -/
def search_available_jobs (s : MatchingState)
    (searchResult : Except String (List ScoredJob)) : MatchingState :=
  match s.candidate_profile with
  | none => s
  | some _ =>
    match searchResult with
    | .ok results => { s with available_jobs := results }
    | .error e => { s with error_message := e }

/-- Match score as computed inside analyze_job_match for one job, from
the state's profile (the empty dict reads as all-default fields). -/
def analyze_job_match_score (s : MatchingState) (job : JobData) : ℚ :=
  calculate_match_score (s.candidate_profile.getD {}) job

/-- Weighted aggregate written the way the spec reads, with
caller-supplied weights applied to the four factors and clamped.
Modelled from the spec for comparison with the source, which hardcodes
0.4, 0.3, 0.2, 0.1. -/
def spec_weighted_score (w1 w2 w3 w4 : ℚ) (cp : CandidateProfile) (job : JobData) : ℚ :=
  min 1 (max 0 (skills_score cp job * w1 +
    exp_score job.experience_level cp.experience_years * w2 +
    location_score cp job * w3 +
    calculate_salary_match cp.salary_expectation job.salary_range * w4))

/-- Candidate with no overlapping skills used to separate the code
score from the spec-weighted score. -/
def cpW : CandidateProfile :=
  { skills := [], experience_years := 4, location := "berlin",
    remote_preference := false, salary_expectation := "" }

/-- Job used to separate the code score from the spec-weighted score. -/
def jobW : JobData :=
  { skills := ["aws"], experience_level := "mid", location := "berlin",
    remote_friendly := false, salary_range := "" }

/-- State carrying caller-supplied weights that put all mass on the
skill factor. -/
def stateW : MatchingState :=
  { MatchingState.init "c7" with
    candidate_profile := some cpW
    required_skills_weight := 1
    experience_weight := 0
    location_weight := 0
    salary_weight := 0 }

/-- Accumulation loop of process_job_matches on id and score pairs: stop
once the accumulator holds max_matches entries, append an entry when its
score reaches the minimum, skip it otherwise. -/
def collectMatches (minScore : ℚ) (maxMatches : Nat)
    (acc : List (String × ℚ)) : List (String × ℚ) → List (String × ℚ)
  | [] => acc
  | j :: rest =>
    if maxMatches ≤ acc.length then acc
    else collectMatches minScore maxMatches (if minScore ≤ j.2 then acc ++ [j] else acc) rest

/-- Stable descending insertion: walk past strictly larger scores, so an
element inserted later never jumps ahead of an equal-scored one. -/
def insertDesc (j : String × ℚ) : List (String × ℚ) → List (String × ℚ)
  | [] => [j]
  | x :: xs => if j.2 < x.2 then x :: insertDesc j xs else j :: x :: xs

/-- Stable sort by descending score, modelling list.sort with
key match_score and reverse set, which is stable in Python. -/
def sortDesc : List (String × ℚ) → List (String × ℚ)
  | [] => []
  | x :: xs => insertDesc x (sortDesc xs)

/-- Stage process_job_matches on id and score pairs: accumulate
above-threshold matches up to the cap in search order, then sort by
descending score. -/
def process_job_matches (minScore : ℚ) (maxMatches : Nat)
    (scored : List (String × ℚ)) : List (String × ℚ) :=
  sortDesc (collectMatches minScore maxMatches [] scored)

/-- Closed set of message type tags exchanged between agents
(the MessageType enum). -/
inductive MessageType where
  | job_created
  | job_updated
  | job_deleted
  | candidate_created
  | candidate_updated
  | candidate_deleted
  | application_created
  | application_updated
  | application_deleted
  | match_request
  | match_response
  | match_found
  | agent_heartbeat
  | agent_status
  | agent_error
deriving DecidableEq

/-- String tag of a message type (the enum value). -/
def MessageType.tag : MessageType → String
  | .job_created => "job_created"
  | .job_updated => "job_updated"
  | .job_deleted => "job_deleted"
  | .candidate_created => "candidate_created"
  | .candidate_updated => "candidate_updated"
  | .candidate_deleted => "candidate_deleted"
  | .application_created => "application_created"
  | .application_updated => "application_updated"
  | .application_deleted => "application_deleted"
  | .match_request => "match_request"
  | .match_response => "match_response"
  | .match_found => "match_found"
  | .agent_heartbeat => "agent_heartbeat"
  | .agent_status => "agent_status"
  | .agent_error => "agent_error"

/-- Lookup of a message type from its string tag; none models the
ValueError raised by the enum constructor on an unknown tag. -/
def MessageType.ofTag (s : String) : Option MessageType :=
  if s = "job_created" then some .job_created
  else if s = "job_updated" then some .job_updated
  else if s = "job_deleted" then some .job_deleted
  else if s = "candidate_created" then some .candidate_created
  else if s = "candidate_updated" then some .candidate_updated
  else if s = "candidate_deleted" then some .candidate_deleted
  else if s = "application_created" then some .application_created
  else if s = "application_updated" then some .application_updated
  else if s = "application_deleted" then some .application_deleted
  else if s = "match_request" then some .match_request
  else if s = "match_response" then some .match_response
  else if s = "match_found" then some .match_found
  else if s = "agent_heartbeat" then some .agent_heartbeat
  else if s = "agent_status" then some .agent_status
  else if s = "agent_error" then some .agent_error
  else none

/-- Naive datetime value, by components, standing for Python's datetime
used in message timestamps. -/
structure DateTime where
  year : Nat
  month : Nat
  day : Nat
  hour : Nat
  minute : Nat
  second : Nat
  microsecond : Nat
deriving DecidableEq

/-- Decimal digit character for a single digit value, through the
ASCII code. -/
def digitChar (n : Nat) : Char := Char.ofNat (48 + n)

/-- Value of a decimal digit character, none on anything else. -/
def digitVal (c : Char) : Option Nat :=
  if c.isDigit then some (c.toNat - 48) else none

/-- Two digit zero-padded print of a value below 100. -/
def pad2 (n : Nat) : List Char := [digitChar (n / 10), digitChar (n % 10)]

/-- Four digit zero-padded print of a value below 10000. -/
def pad4 (n : Nat) : List Char :=
  [digitChar (n / 1000), digitChar (n / 100 % 10), digitChar (n / 10 % 10),
   digitChar (n % 10)]

/-- Six digit zero-padded print of a value below 1000000. -/
def pad6 (n : Nat) : List Char :=
  [digitChar (n / 100000), digitChar (n / 10000 % 10), digitChar (n / 1000 % 10),
   digitChar (n / 100 % 10), digitChar (n / 10 % 10), digitChar (n % 10)]

/-- ISO-8601 print of a naive datetime as datetime.isoformat produces
it: the fractional part appears only when the microsecond is nonzero. -/
def isoformat (d : DateTime) : List Char :=
  pad4 d.year ++ '-' :: (pad2 d.month ++ '-' :: (pad2 d.day ++ 'T' ::
    (pad2 d.hour ++ ':' :: (pad2 d.minute ++ ':' :: (pad2 d.second ++
      (if d.microsecond = 0 then [] else '.' :: pad6 d.microsecond))))))

/-- Parse of exactly two digits, returning the rest of the input. -/
def parse2 : List Char → Option (Nat × List Char)
  | a :: b :: rest => do
    let x ← digitVal a
    let y ← digitVal b
    some (10 * x + y, rest)
  | _ => none

/-- Parse of exactly four digits, returning the rest of the input. -/
def parse4 : List Char → Option (Nat × List Char)
  | a :: b :: c :: d :: rest => do
    let x ← digitVal a
    let y ← digitVal b
    let z ← digitVal c
    let w ← digitVal d
    some (1000 * x + 100 * y + 10 * z + w, rest)
  | _ => none

/-- Parse of exactly six digits, returning the rest of the input. -/
def parse6 : List Char → Option (Nat × List Char)
  | a :: b :: c :: d :: e :: f :: rest => do
    let x ← digitVal a
    let y ← digitVal b
    let z ← digitVal c
    let w ← digitVal d
    let v ← digitVal e
    let u ← digitVal f
    some (100000 * x + 10000 * y + 1000 * z + 100 * w + 10 * v + u, rest)
  | _ => none

/-- Parse of one expected separator character. -/
def expectChar (c : Char) : List Char → Option (List Char)
  | d :: rest => if d = c then some rest else none
  | [] => none

/-- Parse of the ISO-8601 form printed by isoformat, none on malformed
input; models datetime.fromisoformat raising on bad strings. -/
def fromisoformat (s : List Char) : Option DateTime := do
  let (y, s) ← parse4 s
  let s ← expectChar '-' s
  let (mo, s) ← parse2 s
  let s ← expectChar '-' s
  let (d, s) ← parse2 s
  let s ← expectChar 'T' s
  let (h, s) ← parse2 s
  let s ← expectChar ':' s
  let (mi, s) ← parse2 s
  let s ← expectChar ':' s
  let (se, s) ← parse2 s
  match s with
  | [] => some ⟨y, mo, d, h, mi, se, 0⟩
  | _ =>
    let s2 ← expectChar '.' s
    let (us, s3) ← parse6 s2
    match s3 with
    | [] => some ⟨y, mo, d, h, mi, se, us⟩
    | _ => none

/-- Inter-agent message (the Message dataclass); the payload and
metadata maps carry values of an arbitrary type α standing for Any, and
post-init guarantees a present timestamp and present maps. -/
structure Message (α : Type) where
  message_id : String
  message_type : MessageType
  sender_id : String
  receiver_id : Option String := none
  timestamp : DateTime
  payload : List (String × α) := []
  metadata : List (String × α) := []

/-- Canonical wire form of a message: the flat dict produced by
Message.to_dict, with the type as its string tag and the timestamp as an
ISO-8601 string. -/
structure WireMessage (α : Type) where
  message_id : String
  message_type : String
  sender_id : String
  receiver_id : Option String
  timestamp : List Char
  payload : List (String × α)
  metadata : List (String × α)

/-- Encoding of a message to its wire dict (Message.to_dict). -/
def Message.to_dict {α : Type} (m : Message α) : WireMessage α :=
  { message_id := m.message_id
    message_type := m.message_type.tag
    sender_id := m.sender_id
    receiver_id := m.receiver_id
    timestamp := isoformat m.timestamp
    payload := m.payload
    metadata := m.metadata }

/-- Decoding of a wire dict to a message (Message.from_dict); none
models the exceptions raised on an unknown type tag or an unparseable
timestamp. -/
def Message.from_dict {α : Type} (w : WireMessage α) : Option (Message α) := do
  let t ← MessageType.ofTag w.message_type
  let ts ← fromisoformat w.timestamp
  some { message_id := w.message_id
         message_type := t
         sender_id := w.sender_id
         receiver_id := w.receiver_id
         timestamp := ts
         payload := w.payload
         metadata := w.metadata }

/-- Handler dispatch on a decoded message: when a handler is registered
for the type the pair records the handled flag and the one handler
invocation performed, otherwise no handler runs and false is returned. -/
def dispatchMessage {α : Type} (registered : MessageType → Bool)
    (msg : Message α) : Bool × List (Message α) :=
  if registered msg.message_type then (true, [msg]) else (false, [])

/-- Receiver side processing of a raw envelope
(AgentToAgentProtocol.process_message): decode failures return false
without raising; a truthy receiver identity different from this agent's
identity is filtered out before dispatch; otherwise the registered
handler for the type tag runs.  The second component lists the handler
invocations performed. -/
def process_message {α : Type} (agentId : String)
    (registered : MessageType → Bool) (w : WireMessage α) :
    Bool × List (Message α) :=
  match Message.from_dict w with
  | none => (false, [])
  | some msg =>
    match msg.receiver_id with
    | some r =>
      if r ≠ "" ∧ r ≠ agentId then (false, [])
      else dispatchMessage registered msg
    | none => dispatchMessage registered msg

/-- Concrete timestamp used by the protocol witnesses. -/
def dtW : DateTime :=
  { year := 2024, month := 5, day := 6, hour := 7, minute := 8, second := 9,
    microsecond := 123456 }

/-- Concrete directed message used by the protocol witnesses. -/
def msgToB : Message Nat :=
  { message_id := "m1"
    message_type := .match_request
    sender_id := "S"
    receiver_id := some "B"
    timestamp := dtW
    payload := [("k", 3)]
    metadata := [] }

/-- Wire form of the concrete directed message. -/
def wireToB : WireMessage Nat := Message.to_dict msgToB

/-- Concrete message directed at agent A. -/
def msgToA : Message Nat :=
  { msgToB with message_id := "m2", receiver_id := some "A" }

/-- Wire form of the message directed at agent A. -/
def wireToA : WireMessage Nat := Message.to_dict msgToA

/-- Wire envelope with an unknown type tag. -/
def wireBad : WireMessage Nat := { wireToA with message_type := "bogus" }

/-- Registry with a handler for every type. -/
def regAll : MessageType → Bool := fun _ => true

/-- Registry with no handler for any type. -/
def regNone : MessageType → Bool := fun _ => false

/-- Evaluation of the Scenario A skill factor. -/
lemma skills_score_cpA_jobA : skills_score cpA jobA = 2/3 := by
  rw [skills_score, if_neg (by decide : ¬ jobSkills jobA = ∅),
    (by decide : (candidateSkills cpA ∩ jobSkills jobA).card = 2),
    (by decide : (jobSkills jobA).card = 3)]
  norm_num

/-- Evaluation of the Scenario A experience factor. -/
lemma exp_score_cpA_jobA : exp_score jobA.experience_level cpA.experience_years = 1 := by
  rw [exp_score,
    (by decide : extract_min_experience jobA.experience_level = 3),
    (by decide : extract_max_experience jobA.experience_level = 5)]
  norm_num [cpA]

/-- Evaluation of the Scenario A location factor. -/
lemma location_score_cpA_jobA : location_score cpA jobA = 1 := by
  rw [location_score, if_pos (by decide : location_compatible cpA jobA = true)]

/-- Evaluation of the Scenario A salary factor. -/
lemma salary_match_cpA_jobA :
    calculate_salary_match cpA.salary_expectation jobA.salary_range = 1/2 := by
  show calculate_salary_match "" "" = 1/2
  rw [calculate_salary_match, if_pos (Or.inl rfl)]

/-- Evaluation of the Scenario A aggregate. -/
lemma match_score_cpA_jobA : calculate_match_score cpA jobA = 49/60 := by
  rw [calculate_match_score, skills_score_cpA_jobA, exp_score_cpA_jobA,
    location_score_cpA_jobA, salary_match_cpA_jobA]
  rw [show (2:ℚ)/3 * (2/5) + 1 * (3/10) + 1 * (1/5) + 1/2 * (1/10) = 49/60 by norm_num]
  rw [max_eq_right (by norm_num), min_eq_right (by norm_num)]

/-- C1: for every pair of profiles the aggregate match score of the
scoring engine lies in the unit interval (the weighted sum is clamped),
and for all sub-scores in the unit interval the analyzer's final overall
score 0.35 * skill + 0.25 * experience + 0.25 * portfolio +
0.15 * cultural also lies in the unit interval. -/
theorem c1_scores_bounded :
    (∀ (cp : CandidateProfile) (job : JobData),
      0 ≤ calculate_match_score cp job ∧ calculate_match_score cp job ≤ 1) ∧
    (∀ s e p c : ℚ, 0 ≤ s → s ≤ 1 → 0 ≤ e → e ≤ 1 → 0 ≤ p → p ≤ 1 → 0 ≤ c → c ≤ 1 →
      0 ≤ overall_score s e p c ∧ overall_score s e p c ≤ 1) := by
  constructor
  · intro cp job
    unfold calculate_match_score
    constructor
    · exact le_min zero_le_one (le_max_left 0 _)
    · exact min_le_left 1 _
  · intro s e p c hs0 hs1 he0 he1 hp0 hp1 hc0 hc1
    unfold overall_score
    constructor <;> nlinarith

/-- Witness for c1_scores_bounded at concrete inputs. -/
theorem c1_scores_bounded_witness :
    (0 ≤ calculate_match_score cpA jobA ∧ calculate_match_score cpA jobA ≤ 1) ∧
    (0 ≤ overall_score (1/2) 1 0 (3/4) ∧ overall_score (1/2) 1 0 (3/4) ≤ 1) :=
  ⟨c1_scores_bounded.1 cpA jobA,
   c1_scores_bounded.2 (1/2) 1 0 (3/4) (by norm_num) (by norm_num) (by norm_num)
     (by norm_num) (by norm_num) (by norm_num) (by norm_num) (by norm_num)⟩

/-- C2 counterexample: on the Scenario A inputs the code's aggregate is
49/60, which is about 0.8167, and in particular differs from the claimed
value 0.7167 by more than 0.09. -/
theorem c2_counterexample :
    calculate_match_score cpA jobA = 49/60 ∧
    (49:ℚ)/60 - 7167/10000 > 9/100 :=
  ⟨match_score_cpA_jobA, by norm_num⟩

/-- C2 as amended: on the Scenario A inputs the skill factor is 2/3, the
experience factor 1, the location factor 1, the salary factor 1/2, and
the aggregate 0.4 * (2/3) + 0.3 * 1 + 0.2 * 1 + 0.1 * 0.5 = 49/60,
about 0.8167. -/
theorem c2_scenario_a :
    skills_score cpA jobA = 2/3 ∧
    exp_score jobA.experience_level cpA.experience_years = 1 ∧
    location_score cpA jobA = 1 ∧
    calculate_salary_match cpA.salary_expectation jobA.salary_range = 1/2 ∧
    calculate_match_score cpA jobA = 49/60 ∧
    (49:ℚ)/60 = (2/5) * (2/3) + (3/10) * 1 + (1/5) * 1 + (1/10) * (1/2) :=
  ⟨skills_score_cpA_jobA, exp_score_cpA_jobA, location_score_cpA_jobA,
   salary_match_cpA_jobA, match_score_cpA_jobA, by norm_num⟩

/-- Band minimum is never above band maximum, over all level strings. -/
lemma extract_min_le_max (lvl : String) :
    extract_min_experience lvl ≤ extract_max_experience lvl := by
  simp only [extract_min_experience, extract_max_experience]
  split_ifs <;> omega

/-- C8: the experience bands map to the inclusive ranges entry and
junior 0 to 2, mid 3 to 5, senior 5 to 8, lead 8 to 12, principal 12 to
20, unknown bands default to 0 to 5; the experience factor is 1 inside
the range and decays linearly over a 5 year gap below the minimum or
above the maximum; in particular 1 year against band senior gives 0.2. -/
theorem c8_experience_bands :
    ((extract_min_experience "entry" = 0 ∧ extract_max_experience "entry" = 2) ∧
     (extract_min_experience "junior" = 0 ∧ extract_max_experience "junior" = 2) ∧
     (extract_min_experience "mid" = 3 ∧ extract_max_experience "mid" = 5) ∧
     (extract_min_experience "senior" = 5 ∧ extract_max_experience "senior" = 8) ∧
     (extract_min_experience "lead" = 8 ∧ extract_max_experience "lead" = 12) ∧
     (extract_min_experience "principal" = 12 ∧ extract_max_experience "principal" = 20)) ∧
    (∀ lvl : String,
      pyLower lvl ∉ (["entry", "junior", "mid", "senior", "lead", "principal"] : List String) →
      extract_min_experience lvl = 0 ∧ extract_max_experience lvl = 5) ∧
    (∀ (lvl : String) (years : Int),
      ((extract_min_experience lvl : Int) ≤ years ∧ years ≤ (extract_max_experience lvl : Int) →
        exp_score lvl years = 1) ∧
      (years < (extract_min_experience lvl : Int) →
        exp_score lvl years =
          max 0 (1 - ((extract_min_experience lvl : ℚ) - (years : ℚ)) / 5)) ∧
      ((extract_max_experience lvl : Int) < years →
        exp_score lvl years =
          max 0 (1 - ((years : ℚ) - (extract_max_experience lvl : ℚ)) / 5))) ∧
    exp_score "senior" 1 = 1/5 := by
  refine ⟨⟨⟨by decide, by decide⟩, ⟨by decide, by decide⟩, ⟨by decide, by decide⟩,
    ⟨by decide, by decide⟩, ⟨by decide, by decide⟩, ⟨by decide, by decide⟩⟩, ?_, ?_, ?_⟩
  · intro lvl h
    simp only [List.mem_cons, List.not_mem_nil, or_false, not_or] at h
    obtain ⟨h1, h2, h3, h4, h5, h6⟩ := h
    constructor
    · simp only [extract_min_experience, if_neg h1, if_neg h2, if_neg h3, if_neg h4,
        if_neg h5, if_neg h6]
    · simp only [extract_max_experience, if_neg h1, if_neg h2, if_neg h3, if_neg h4,
        if_neg h5, if_neg h6]
  · intro lvl years
    have hmm : (extract_min_experience lvl : Int) ≤ (extract_max_experience lvl : Int) := by
      exact_mod_cast extract_min_le_max lvl
    refine ⟨?_, ?_, ?_⟩
    · intro h
      simp only [exp_score]
      rw [if_pos h]
    · intro h
      simp only [exp_score]
      rw [if_neg (by omega), if_pos h]
      push_cast
      ring_nf
    · intro h
      simp only [exp_score]
      rw [if_neg (by omega), if_neg (by omega)]
      push_cast
      ring_nf
  · rw [exp_score,
      (by decide : extract_min_experience "senior" = 5),
      (by decide : extract_max_experience "senior" = 8)]
    norm_num

/-- Witness for c8_experience_bands: the unknown band case at the
level string wizard and the decay cases at band senior with 1 year and
band mid with 9 years. -/
theorem c8_experience_bands_witness :
    (extract_min_experience "wizard" = 0 ∧ extract_max_experience "wizard" = 5) ∧
    exp_score "senior" 5 = 1 ∧
    exp_score "senior" 1 =
      max 0 (1 - ((extract_min_experience "senior" : ℚ) - ((1 : Int) : ℚ)) / 5) ∧
    exp_score "mid" 9 =
      max 0 (1 - (((9 : Int) : ℚ) - (extract_max_experience "mid" : ℚ)) / 5) :=
  ⟨(c8_experience_bands.2.1 "wizard" (by decide)),
   (c8_experience_bands.2.2.1 "senior" 5).1 (by constructor <;> decide),
   (c8_experience_bands.2.2.1 "senior" 1).2.1 (by decide),
   (c8_experience_bands.2.2.1 "mid" 9).2.2 (by decide)⟩

/-- C9: the skill factor is the intersection size over the counterpart
skill set size when that set is non-empty and 0 when it is empty, and
the missing skills are exactly the counterpart skills absent from the
subject. -/
theorem c9_skill_factor (cp : CandidateProfile) (job : JobData) :
    (jobSkills job = ∅ → skills_score cp job = 0) ∧
    (jobSkills job ≠ ∅ →
      skills_score cp job =
        ((candidateSkills cp ∩ jobSkills job).card : ℚ) / ((jobSkills job).card : ℚ)) ∧
    (∀ sk : String, sk ∈ missing_skills cp job ↔
       sk ∈ jobSkills job ∧ sk ∉ candidateSkills cp) := by
  refine ⟨?_, ?_, ?_⟩
  · intro h
    rw [skills_score, if_pos h]
  · intro h
    rw [skills_score, if_neg h]
  · intro sk
    rw [missing_skills, Finset.mem_sdiff]

/-- Witness for c9_skill_factor: an empty job skill set gives factor 0
without error, and the Scenario A pair realizes the quotient form. -/
theorem c9_skill_factor_witness :
    skills_score cpA { skills := [] } = 0 ∧
    skills_score cpA jobA =
      ((candidateSkills cpA ∩ jobSkills jobA).card : ℚ) / ((jobSkills jobA).card : ℚ) ∧
    ("aws" ∈ missing_skills cpA jobA ↔
      "aws" ∈ jobSkills jobA ∧ "aws" ∉ candidateSkills cpA) :=
  ⟨(c9_skill_factor cpA { skills := [] }).1 (by decide),
   (c9_skill_factor cpA jobA).2.1 (by decide),
   (c9_skill_factor cpA jobA).2.2 "aws"⟩

/-- Empty needles are contained in every haystack. -/
lemma containsSub_nil (l : List Char) : containsSub [] l = true := by
  cases l <;> simp [containsSub, List.isPrefixOf]

/-- C10: when either side's location string is empty, the substring test
succeeds vacuously, so the location factor is 1 and the cultural fit
score includes the 0.1 location compatibility bonus, for every
counterpart. -/
theorem c10_empty_location (cp : CandidateProfile) (job : JobData)
    (h : cp.location = "" ∨ job.location = "") :
    location_compatible cp job = true ∧
    location_score cp job = 1 ∧
    cultural_fit_score cp job =
      min 1 (7/10 +
        (if (extract_min_experience job.experience_level : Int) ≤ cp.experience_years
         then (1:ℚ)/10 else 0) +
        (if cp.remote_preference = job.remote_friendly then (1:ℚ)/10 else 0) +
        1/10) := by
  have hcompat : location_compatible cp job = true := by
    rw [location_compatible]
    rcases h with h | h
    · rw [h]
      simp [pyLower, containsSub_nil]
    · rw [h]
      simp [pyLower, containsSub_nil]
  refine ⟨hcompat, ?_, ?_⟩
  · rw [location_score, if_pos hcompat]
  · rw [cultural_fit_score]
    simp only [hcompat, if_true]
    split_ifs <;> congr 1 <;> ring

/-- Witness for c10_empty_location: two profiles with no location data
at all get the location factor 1 and the cultural location bonus. -/
theorem c10_empty_location_witness :
    location_compatible ({} : CandidateProfile) ({} : JobData) = true ∧
    location_score ({} : CandidateProfile) ({} : JobData) = 1 ∧
    cultural_fit_score ({} : CandidateProfile) ({} : JobData) =
      min 1 (7/10 +
        (if (extract_min_experience (JobData.experience_level {}) : Int) ≤
            CandidateProfile.experience_years {} then (1:ℚ)/10 else 0) +
        (if CandidateProfile.remote_preference {} = JobData.remote_friendly {}
         then (1:ℚ)/10 else 0) +
        1/10) :=
  c10_empty_location {} {} (Or.inl rfl)

/-- C5 counterexample: a state carrying an earlier stage's recorded
error loses that record when load_candidate_profile catches a new
exception — the single error_message string is overwritten, not
appended to. -/
theorem c5_counterexample :
    (load_candidate_profile
        { MatchingState.init "c1" with error_message := "stage one failed" }
        (.error "stage two failed")).error_message = "stage two failed" ∧
    ("stage one failed" : String) ≠ "stage two failed" :=
  ⟨rfl, by decide⟩

/-- C5 as amended: the matching state's error record is one string
field; a stage that catches an exception overwrites it with the latest
error text (without any stage name), a profile lookup miss overwrites it
with a fixed message, successful stages leave it unchanged, and the
search stage is a no-op when no profile is loaded. -/
theorem c5_error_record_overwrites (s : MatchingState) (e : String)
    (p : CandidateProfile) :
    (load_candidate_profile s (.error e)).error_message = e ∧
    (load_candidate_profile s (.ok none)).error_message = "Candidate profile not found" ∧
    (load_candidate_profile s (.ok (some p))).error_message = s.error_message ∧
    (s.candidate_profile = some p →
      (search_available_jobs s (.error e)).error_message = e) ∧
    (s.candidate_profile = none → search_available_jobs s (.error e) = s) := by
  refine ⟨rfl, rfl, rfl, ?_, ?_⟩
  · intro h
    rw [search_available_jobs, h]
  · intro h
    rw [search_available_jobs, h]

/-- Witness for c5_error_record_overwrites at a state with a loaded
profile and at the initial state. -/
theorem c5_error_record_overwrites_witness :
    (search_available_jobs
        { MatchingState.init "c1" with candidate_profile := some cpA }
        (.error "search failed")).error_message = "search failed" ∧
    search_available_jobs (MatchingState.init "c1") (.error "search failed") =
      MatchingState.init "c1" :=
  ⟨(c5_error_record_overwrites
      { MatchingState.init "c1" with candidate_profile := some cpA }
      "search failed" cpA).2.2.2.1 rfl,
   (c5_error_record_overwrites (MatchingState.init "c1") "search failed" cpA).2.2.2.2 rfl⟩

/-- C7 counterexample: with caller-supplied weights 1, 0, 0, 0 in the
state, the code still scores the pair 11/20 using the hardcoded weights,
while the spec's weighted sum with the state's weights would give 0. -/
theorem c7_counterexample :
    analyze_job_match_score stateW jobW = 11/20 ∧
    spec_weighted_score stateW.required_skills_weight stateW.experience_weight
      stateW.location_weight stateW.salary_weight cpW jobW = 0 ∧
    ((11:ℚ)/20 ≠ 0) := by
  have hs : skills_score cpW jobW = 0 := by
    rw [skills_score, if_neg (by decide : ¬ jobSkills jobW = ∅),
      (by decide : (candidateSkills cpW ∩ jobSkills jobW).card = 0)]
    norm_num
  have he : exp_score jobW.experience_level cpW.experience_years = 1 := by
    rw [exp_score,
      (by decide : extract_min_experience jobW.experience_level = 3),
      (by decide : extract_max_experience jobW.experience_level = 5)]
    norm_num [cpW]
  have hl : location_score cpW jobW = 1 := by
    rw [location_score, if_pos (by decide : location_compatible cpW jobW = true)]
  have hsal : calculate_salary_match cpW.salary_expectation jobW.salary_range = 1/2 := by
    show calculate_salary_match "" "" = 1/2
    rw [calculate_salary_match, if_pos (Or.inl rfl)]
  refine ⟨?_, ?_, by norm_num⟩
  · show calculate_match_score cpW jobW = 11/20
    rw [calculate_match_score, hs, he, hl, hsal]
    rw [show (0:ℚ) * (2/5) + 1 * (3/10) + 1 * (1/5) + 1/2 * (1/10) = 11/20 by norm_num]
    rw [max_eq_right (by norm_num), min_eq_right (by norm_num)]
  · show spec_weighted_score 1 0 0 0 cpW jobW = 0
    rw [spec_weighted_score, hs, he, hl, hsal]
    norm_num

/-- C7 as amended: the aggregate score never reads the state's four
weight fields — replacing them by any caller-supplied values leaves the
score of every job unchanged — and the aggregate always equals the
weighted sum with the fixed default weights 0.4, 0.3, 0.2, 0.1. -/
theorem c7_weights_ignored (s : MatchingState) (w1 w2 w3 w4 : ℚ) (job : JobData) :
    analyze_job_match_score
      { s with required_skills_weight := w1, experience_weight := w2,
               location_weight := w3, salary_weight := w4 } job =
      analyze_job_match_score s job ∧
    (∀ cp : CandidateProfile,
      calculate_match_score cp job = spec_weighted_score (2/5) (3/10) (1/5) (1/10) cp job) :=
  ⟨rfl, fun _ => rfl⟩

/-- The accumulation loop keeps the first max entries of the
above-threshold sublist, in search order. -/
lemma collectMatches_eq (minScore : ℚ) (maxMatches : Nat) :
    ∀ (l acc : List (String × ℚ)), acc.length ≤ maxMatches →
      collectMatches minScore maxMatches acc l =
        acc ++ (l.filter (fun j => minScore ≤ j.2)).take (maxMatches - acc.length)
  | [], acc, _ => by simp [collectMatches]
  | j :: rest, acc, hacc => by
    rw [collectMatches]
    by_cases hfull : maxMatches ≤ acc.length
    · rw [if_pos hfull]
      have : maxMatches - acc.length = 0 := by omega
      simp [this]
    · rw [if_neg hfull]
      by_cases hj : minScore ≤ j.2
      · have hlen : (acc ++ [j]).length ≤ maxMatches := by
          simp only [List.length_append, List.length_singleton]
          omega
        rw [if_pos hj, collectMatches_eq minScore maxMatches rest (acc ++ [j]) hlen]
        have hstep : maxMatches - acc.length = (maxMatches - (acc ++ [j]).length) + 1 := by
          simp only [List.length_append, List.length_singleton]
          omega
        simp only [List.filter_cons, decide_eq_true_eq, if_pos hj, hstep,
          List.take_succ_cons, List.append_assoc, List.singleton_append]
      · rw [if_neg hj, collectMatches_eq minScore maxMatches rest acc hacc]
        simp only [List.filter_cons, decide_eq_true_eq, if_neg hj]

/-- Membership in a descending insertion. -/
lemma mem_insertDesc (a j : String × ℚ) :
    ∀ l : List (String × ℚ), a ∈ insertDesc j l ↔ a = j ∨ a ∈ l
  | [] => by simp [insertDesc]
  | x :: xs => by
    rw [insertDesc]
    by_cases h : j.2 < x.2
    · rw [if_pos h]
      simp [mem_insertDesc a j xs]
      tauto
    · rw [if_neg h]
      simp

/-- Descending insertion preserves descending pairwise order. -/
lemma pairwise_insertDesc (j : String × ℚ) :
    ∀ l : List (String × ℚ), l.Pairwise (fun a b => b.2 ≤ a.2) →
      (insertDesc j l).Pairwise (fun a b => b.2 ≤ a.2)
  | [], _ => by simp [insertDesc]
  | x :: xs, h => by
    rw [List.pairwise_cons] at h
    obtain ⟨hx, hxs⟩ := h
    rw [insertDesc]
    by_cases hc : j.2 < x.2
    · rw [if_pos hc]
      rw [List.pairwise_cons]
      refine ⟨?_, pairwise_insertDesc j xs hxs⟩
      intro b hb
      rcases (mem_insertDesc b j xs).mp hb with rfl | hb
      · exact le_of_lt hc
      · exact hx b hb
    · rw [if_neg hc]
      rw [List.pairwise_cons]
      refine ⟨?_, List.pairwise_cons.mpr ⟨hx, hxs⟩⟩
      intro b hb
      rcases List.mem_cons.mp hb with rfl | hb
      · exact le_of_not_lt hc
      · exact le_trans (hx b hb) (le_of_not_lt hc)

/-- The sort output is in descending score order. -/
lemma sortDesc_pairwise :
    ∀ l : List (String × ℚ), (sortDesc l).Pairwise (fun a b => b.2 ≤ a.2)
  | [] => by simp [sortDesc]
  | x :: xs => pairwise_insertDesc x (sortDesc xs) (sortDesc_pairwise xs)

/-- Inserting an element never disturbs the subsequence of any fixed
score class: the new element lands in front of its own class only. -/
lemma filter_insertDesc (c : ℚ) (j : String × ℚ) :
    ∀ l : List (String × ℚ),
      (insertDesc j l).filter (fun a => a.2 = c) =
        if j.2 = c then j :: l.filter (fun a => a.2 = c)
        else l.filter (fun a => a.2 = c)
  | [] => by
    rw [insertDesc]
    by_cases h : j.2 = c <;> simp [h]
  | x :: xs => by
    have hrec := filter_insertDesc c j xs
    rw [insertDesc]
    by_cases hlt : j.2 < x.2
    · rw [if_pos hlt]
      by_cases hj : j.2 = c
      · have hx : ¬ x.2 = c := by
          intro hx
          rw [hj] at hlt
          rw [hx] at hlt
          exact lt_irrefl c hlt
        simp [List.filter_cons, hx, hj, hrec]
      · by_cases hx : x.2 = c <;> simp [List.filter_cons, hx, hj, hrec]
    · rw [if_neg hlt]
      by_cases hj : j.2 = c <;> by_cases hx : x.2 = c <;>
        simp [List.filter_cons, hj, hx]

/-- The stable sort leaves every equal-score class in its original
relative order. -/
lemma filter_sortDesc (c : ℚ) :
    ∀ l : List (String × ℚ),
      (sortDesc l).filter (fun a => a.2 = c) = l.filter (fun a => a.2 = c)
  | [] => rfl
  | x :: xs => by
    rw [sortDesc, filter_insertDesc c x (sortDesc xs), List.filter_cons,
      filter_sortDesc c xs]
    by_cases hx : x.2 = c <;> simp [hx]

/-- Length is preserved by descending insertion. -/
lemma length_insertDesc (j : String × ℚ) :
    ∀ l : List (String × ℚ), (insertDesc j l).length = l.length + 1
  | [] => rfl
  | x :: xs => by
    rw [insertDesc]
    by_cases h : j.2 < x.2
    · rw [if_pos h]
      simp [length_insertDesc j xs]
    · rw [if_neg h]
      simp

/-- Length is preserved by the stable sort. -/
lemma length_sortDesc : ∀ l : List (String × ℚ), (sortDesc l).length = l.length
  | [] => rfl
  | x :: xs => by rw [sortDesc, length_insertDesc, length_sortDesc xs, List.length_cons]

/-- Membership is preserved by the stable sort. -/
lemma mem_sortDesc (a : String × ℚ) :
    ∀ l : List (String × ℚ), a ∈ sortDesc l ↔ a ∈ l
  | [] => Iff.rfl
  | x :: xs => by
    rw [sortDesc, mem_insertDesc, mem_sortDesc a xs, List.mem_cons]

/-- C6: after aggregation the match list is the stable descending sort
of the first max_matches above-threshold results in search order: it is
sorted by descending score, every equal-score class keeps its search
order (both against the kept prefix and as a subsequence of the full
search output), every kept score meets the threshold, the length is
capped, and Scenario D returns C3, C1, C2. -/
theorem c6_ranking :
    (∀ (minScore : ℚ) (maxMatches : Nat) (scored : List (String × ℚ)),
      process_job_matches minScore maxMatches scored =
        sortDesc ((scored.filter (fun j => minScore ≤ j.2)).take maxMatches)) ∧
    (∀ (minScore : ℚ) (maxMatches : Nat) (scored : List (String × ℚ)),
      (process_job_matches minScore maxMatches scored).Pairwise (fun a b => b.2 ≤ a.2)) ∧
    (∀ (minScore : ℚ) (maxMatches : Nat) (scored : List (String × ℚ)) (c : ℚ),
      (process_job_matches minScore maxMatches scored).filter (fun j => j.2 = c) =
        ((scored.filter (fun j => minScore ≤ j.2)).take maxMatches).filter
          (fun j => j.2 = c)) ∧
    (∀ (minScore : ℚ) (maxMatches : Nat) (scored : List (String × ℚ)) (c : ℚ),
      ((process_job_matches minScore maxMatches scored).filter
          (fun j => j.2 = c)).Sublist (scored.filter (fun j => j.2 = c))) ∧
    (∀ (minScore : ℚ) (maxMatches : Nat) (scored : List (String × ℚ))
        (j : String × ℚ), j ∈ process_job_matches minScore maxMatches scored →
      minScore ≤ j.2) ∧
    (∀ (minScore : ℚ) (maxMatches : Nat) (scored : List (String × ℚ)),
      (process_job_matches minScore maxMatches scored).length ≤ maxMatches) ∧
    process_job_matches (7/10) 10 [("C3", 9/10), ("C1", 9/10), ("C2", 7/10)] =
      [("C3", 9/10), ("C1", 9/10), ("C2", 7/10)] := by
  have heq : ∀ (minScore : ℚ) (maxMatches : Nat) (scored : List (String × ℚ)),
      process_job_matches minScore maxMatches scored =
        sortDesc ((scored.filter (fun j => minScore ≤ j.2)).take maxMatches) := by
    intro minScore maxMatches scored
    rw [process_job_matches, collectMatches_eq minScore maxMatches scored []
      (Nat.zero_le _)]
    simp
  refine ⟨heq, ?_, ?_, ?_, ?_, ?_, ?_⟩
  · intro minScore maxMatches scored
    rw [heq]
    exact sortDesc_pairwise _
  · intro minScore maxMatches scored c
    rw [heq, filter_sortDesc]
  · intro minScore maxMatches scored c
    rw [heq, filter_sortDesc]
    exact ((List.take_sublist _ _).filter _).trans ((List.filter_sublist _).filter _)
  · intro minScore maxMatches scored j hj
    rw [heq, mem_sortDesc] at hj
    have hj2 := List.mem_of_mem_take hj
    have := List.of_mem_filter hj2
    exact of_decide_eq_true this
  · intro minScore maxMatches scored
    rw [heq, length_sortDesc]
    exact (List.length_take_le _ _)
  · norm_num [process_job_matches, collectMatches, sortDesc, insertDesc]

/-- Witness for c6_ranking: the first tied entry of Scenario D is in the
returned ranking and meets the threshold. -/
theorem c6_ranking_witness : (7:ℚ)/10 ≤ (("C3", (9:ℚ)/10)).2 :=
  c6_ranking.2.2.2.2.1 (7/10) 10 [("C3", 9/10), ("C1", 9/10), ("C2", 7/10)]
    ("C3", 9/10) (by rw [c6_ranking.2.2.2.2.2.2]; simp)

/-- Tag decoding inverts tag encoding on every message type. -/
lemma MessageType.ofTag_tag : ∀ t : MessageType, MessageType.ofTag t.tag = some t := by
  intro t
  cases t <;> rfl

/-- Digit parsing inverts digit printing on digit values. -/
lemma digitVal_digitChar (n : Nat) (h : n < 10) : digitVal (digitChar n) = some n := by
  interval_cases n <;> rfl

/-- Two digit parsing inverts two digit printing below 100. -/
lemma parse2_pad2 (n : Nat) (h : n < 100) (rest : List Char) :
    parse2 (pad2 n ++ rest) = some (n, rest) := by
  have h1 : n / 10 < 10 := by omega
  have h2 : n % 10 < 10 := Nat.mod_lt _ (by omega)
  simp [pad2, parse2, digitVal_digitChar _ h1, digitVal_digitChar _ h2]
  omega

/-- Four digit parsing inverts four digit printing below 10000. -/
lemma parse4_pad4 (n : Nat) (h : n < 10000) (rest : List Char) :
    parse4 (pad4 n ++ rest) = some (n, rest) := by
  have h1 : n / 1000 < 10 := by omega
  have h2 : n / 100 % 10 < 10 := Nat.mod_lt _ (by omega)
  have h3 : n / 10 % 10 < 10 := Nat.mod_lt _ (by omega)
  have h4 : n % 10 < 10 := Nat.mod_lt _ (by omega)
  simp [pad4, parse4, digitVal_digitChar _ h1, digitVal_digitChar _ h2,
    digitVal_digitChar _ h3, digitVal_digitChar _ h4]
  omega

/-- Six digit parsing inverts six digit printing below 1000000. -/
lemma parse6_pad6 (n : Nat) (h : n < 1000000) (rest : List Char) :
    parse6 (pad6 n ++ rest) = some (n, rest) := by
  have h1 : n / 100000 < 10 := by omega
  have h2 : n / 10000 % 10 < 10 := Nat.mod_lt _ (by omega)
  have h3 : n / 1000 % 10 < 10 := Nat.mod_lt _ (by omega)
  have h4 : n / 100 % 10 < 10 := Nat.mod_lt _ (by omega)
  have h5 : n / 10 % 10 < 10 := Nat.mod_lt _ (by omega)
  have h6 : n % 10 < 10 := Nat.mod_lt _ (by omega)
  simp [pad6, parse6, digitVal_digitChar _ h1, digitVal_digitChar _ h2,
    digitVal_digitChar _ h3, digitVal_digitChar _ h4, digitVal_digitChar _ h5,
    digitVal_digitChar _ h6]
  omega

/-- Separator parsing consumes its expected character. -/
lemma expectChar_cons (c : Char) (rest : List Char) :
    expectChar c (c :: rest) = some rest := by
  simp [expectChar]

/-- Six digit parsing of an unpadded tail. -/
lemma parse6_pad6_nil (n : Nat) (h : n < 1000000) :
    parse6 (pad6 n) = some (n, []) := by
  have := parse6_pad6 n h []
  simpa using this

/-- Two digit parsing of an unpadded tail. -/
lemma parse2_pad2_nil (n : Nat) (h : n < 100) :
    parse2 (pad2 n) = some (n, []) := by
  have := parse2_pad2 n h []
  simpa using this

set_option maxHeartbeats 1000000 in
/-- ISO parsing inverts ISO printing on component-bounded datetimes. -/
lemma fromisoformat_isoformat (d : DateTime) (hy : d.year < 10000)
    (hmo : d.month < 100) (hd : d.day < 100) (hh : d.hour < 100)
    (hmi : d.minute < 100) (hs : d.second < 100)
    (hus : d.microsecond < 1000000) :
    fromisoformat (isoformat d) = some d := by
  obtain ⟨y, mo, da, ho, mi, se, us⟩ := d
  simp only at hy hmo hd hh hmi hs hus
  rw [isoformat]
  dsimp only
  by_cases hus0 : us = 0
  · rw [if_pos hus0, fromisoformat]
    simp only [List.append_nil, Option.bind_eq_bind]
    rw [parse4_pad4 y hy, Option.some_bind]
    dsimp only
    rw [expectChar_cons, Option.some_bind]
    rw [parse2_pad2 mo hmo, Option.some_bind]
    dsimp only
    rw [expectChar_cons, Option.some_bind]
    rw [parse2_pad2 da hd, Option.some_bind]
    dsimp only
    rw [expectChar_cons, Option.some_bind]
    rw [parse2_pad2 ho hh, Option.some_bind]
    dsimp only
    rw [expectChar_cons, Option.some_bind]
    rw [parse2_pad2 mi hmi, Option.some_bind]
    dsimp only
    rw [expectChar_cons, Option.some_bind]
    rw [parse2_pad2_nil se hs, Option.some_bind]
    dsimp only
    rw [hus0]
  · rw [if_neg hus0, fromisoformat]
    simp only [Option.bind_eq_bind]
    rw [parse4_pad4 y hy, Option.some_bind]
    dsimp only
    rw [expectChar_cons, Option.some_bind]
    rw [parse2_pad2 mo hmo, Option.some_bind]
    dsimp only
    rw [expectChar_cons, Option.some_bind]
    rw [parse2_pad2 da hd, Option.some_bind]
    dsimp only
    rw [expectChar_cons, Option.some_bind]
    rw [parse2_pad2 ho hh, Option.some_bind]
    dsimp only
    rw [expectChar_cons, Option.some_bind]
    rw [parse2_pad2 mi hmi, Option.some_bind]
    dsimp only
    rw [expectChar_cons, Option.some_bind]
    rw [parse2_pad2 se hs, Option.some_bind]
    dsimp only
    rw [expectChar_cons, Option.some_bind]
    rw [parse6_pad6_nil us hus, Option.some_bind]

/-- C3: for every message of every type in the closed tag set, decoding
the encoded wire form reproduces the message on all fields; in the wire
form the type is its string tag and the timestamp its ISO-8601 print. -/
theorem c3_message_roundtrip (α : Type) (m : Message α)
    (hy : m.timestamp.year < 10000) (hmo : m.timestamp.month < 100)
    (hd : m.timestamp.day < 100) (hh : m.timestamp.hour < 100)
    (hmi : m.timestamp.minute < 100) (hs : m.timestamp.second < 100)
    (hus : m.timestamp.microsecond < 1000000) :
    Message.from_dict (Message.to_dict m) = some m ∧
    (Message.to_dict m).message_type = m.message_type.tag ∧
    (Message.to_dict m).timestamp = isoformat m.timestamp := by
  refine ⟨?_, rfl, rfl⟩
  rw [Message.from_dict, Message.to_dict]
  simp only [Option.bind_eq_bind, MessageType.ofTag_tag, Option.some_bind,
    fromisoformat_isoformat m.timestamp hy hmo hd hh hmi hs hus]

/-- Witness for c3_message_roundtrip on a concrete directed message. -/
theorem c3_message_roundtrip_witness :
    Message.from_dict (Message.to_dict msgToB) = some msgToB :=
  (c3_message_roundtrip Nat msgToB (by decide) (by decide) (by decide) (by decide)
    (by decide) (by decide) (by decide)).1

/-- C4: processing returns false and invokes no handler on a decode
failure, on a truthy receiver identity different from this agent's, and
on an unregistered type tag; in every other case the registered handler
for the tag is invoked on the decoded message and true is returned. -/
theorem c4_process_message (α : Type) (agentId : String)
    (registered : MessageType → Bool) (w : WireMessage α) :
    (Message.from_dict w = none →
      process_message agentId registered w = (false, [])) ∧
    (∀ (msg : Message α) (r : String), Message.from_dict w = some msg →
      msg.receiver_id = some r → r ≠ "" → r ≠ agentId →
      process_message agentId registered w = (false, [])) ∧
    (∀ msg : Message α, Message.from_dict w = some msg →
      (msg.receiver_id = none ∨ msg.receiver_id = some "" ∨
        msg.receiver_id = some agentId) →
      registered msg.message_type = false →
      process_message agentId registered w = (false, [])) ∧
    (∀ msg : Message α, Message.from_dict w = some msg →
      (msg.receiver_id = none ∨ msg.receiver_id = some "" ∨
        msg.receiver_id = some agentId) →
      registered msg.message_type = true →
      process_message agentId registered w = (true, [msg])) := by
  refine ⟨?_, ?_, ?_, ?_⟩
  · intro h
    rw [process_message, h]
  · intro msg r hdec hrec hne hnagent
    rw [process_message, hdec]
    dsimp only
    rw [hrec]
    dsimp only
    rw [if_pos ⟨hne, hnagent⟩]
  · intro msg hdec hrec hreg
    rw [process_message, hdec]
    dsimp only
    rcases hrec with hrec | hrec | hrec
    · rw [hrec, dispatchMessage, hreg]
      rfl
    · rw [hrec]
      dsimp only
      rw [if_neg (by simp), dispatchMessage, hreg]
      rfl
    · rw [hrec]
      dsimp only
      rw [if_neg (by simp), dispatchMessage, hreg]
      rfl
  · intro msg hdec hrec hreg
    rw [process_message, hdec]
    dsimp only
    rcases hrec with hrec | hrec | hrec
    · rw [hrec, dispatchMessage, hreg]
      rfl
    · rw [hrec]
      dsimp only
      rw [if_neg (by simp), dispatchMessage, hreg]
      rfl
    · rw [hrec]
      dsimp only
      rw [if_neg (by simp), dispatchMessage, hreg]
      rfl

/-- Witness for c4_process_message: a bad envelope, a message routed to
agent B observed at agent A, an unregistered tag at the addressee, and a
registered tag at the addressee. -/
theorem c4_process_message_witness :
    process_message "A" regAll wireBad = (false, []) ∧
    process_message "A" regAll wireToB = (false, []) ∧
    process_message "A" regNone wireToA = (false, []) ∧
    process_message "A" regAll wireToA = (true, [msgToA]) :=
  ⟨(c4_process_message Nat "A" regAll wireBad).1 rfl,
   (c4_process_message Nat "A" regAll wireToB).2.1 msgToB "B" rfl rfl
     (by decide) (by decide),
   (c4_process_message Nat "A" regNone wireToA).2.2.1 msgToA rfl
     (Or.inr (Or.inr rfl)) rfl,
   (c4_process_message Nat "A" regAll wireToA).2.2.2 msgToA rfl
     (Or.inr (Or.inr rfl)) rfl⟩

end Jobzee
